import Mathlib

set_option maxRecDepth 100000

/-!
Verification of the template engine of `initx` (src/main.rs) against its
specification. The program's core pieces are embedded shallowly:

* `apply_template` — the variable-substitution scanner (src/main.rs, `fn apply_template`);
* `findTemplate` — template resolution by name or alias (src/main.rs, `main`, install arm);
* `loadTemplates` — registry loading with its skip-on-error policy (src/main.rs, `TEMPLATES`);
* `runCommands` — the post-copy command loop (src/main.rs, `main`, install arm);
* `installTemplate` — the install pipeline's guard ordering (src/main.rs, `main`, install arm).

Rust's `BTreeMap<&str, String>` is modelled by its lookup function
`String → Option String` (`BTreeMap::get` compares keys by exact byte equality,
which is exact `String` equality here).
-/

/-- Code points of Unicode general categories Lu, Ll, Lt, Lm, Lo, Nd, Nl and No
(inclusive ranges, Unicode 14.0). Rust's `char::is_alphanumeric` holds on the
Alphabetic code points together with Nd, Nl and No; that set agrees with these
categories on every character appearing in any statement of this development
(all of them ASCII except U+00E9), differing elsewhere only on the
Other_Alphabetic combining marks. -/
def alphanumericRanges : List (Nat × Nat) := [
  (48, 57), (65, 90), (97, 122), (170, 170), (178, 179), (181, 181),
  (185, 186), (188, 190), (192, 214), (216, 246), (248, 705), (710, 721),
  (736, 740), (748, 748), (750, 750), (880, 884), (886, 887), (890, 893),
  (895, 895), (902, 902), (904, 906), (908, 908), (910, 929), (931, 1013),
  (1015, 1153), (1162, 1327), (1329, 1366), (1369, 1369), (1376, 1416), (1488, 1514),
  (1519, 1522), (1568, 1610), (1632, 1641), (1646, 1647), (1649, 1747), (1749, 1749),
  (1765, 1766), (1774, 1788), (1791, 1791), (1808, 1808), (1810, 1839), (1869, 1957),
  (1969, 1969), (1984, 2026), (2036, 2037), (2042, 2042), (2048, 2069), (2074, 2074),
  (2084, 2084), (2088, 2088), (2112, 2136), (2144, 2154), (2160, 2183), (2185, 2190),
  (2208, 2249), (2308, 2361), (2365, 2365), (2384, 2384), (2392, 2401), (2406, 2415),
  (2417, 2432), (2437, 2444), (2447, 2448), (2451, 2472), (2474, 2480), (2482, 2482),
  (2486, 2489), (2493, 2493), (2510, 2510), (2524, 2525), (2527, 2529), (2534, 2545),
  (2548, 2553), (2556, 2556), (2565, 2570), (2575, 2576), (2579, 2600), (2602, 2608),
  (2610, 2611), (2613, 2614), (2616, 2617), (2649, 2652), (2654, 2654), (2662, 2671),
  (2674, 2676), (2693, 2701), (2703, 2705), (2707, 2728), (2730, 2736), (2738, 2739),
  (2741, 2745), (2749, 2749), (2768, 2768), (2784, 2785), (2790, 2799), (2809, 2809),
  (2821, 2828), (2831, 2832), (2835, 2856), (2858, 2864), (2866, 2867), (2869, 2873),
  (2877, 2877), (2908, 2909), (2911, 2913), (2918, 2927), (2929, 2935), (2947, 2947),
  (2949, 2954), (2958, 2960), (2962, 2965), (2969, 2970), (2972, 2972), (2974, 2975),
  (2979, 2980), (2984, 2986), (2990, 3001), (3024, 3024), (3046, 3058), (3077, 3084),
  (3086, 3088), (3090, 3112), (3114, 3129), (3133, 3133), (3160, 3162), (3165, 3165),
  (3168, 3169), (3174, 3183), (3192, 3198), (3200, 3200), (3205, 3212), (3214, 3216),
  (3218, 3240), (3242, 3251), (3253, 3257), (3261, 3261), (3293, 3294), (3296, 3297),
  (3302, 3311), (3313, 3314), (3332, 3340), (3342, 3344), (3346, 3386), (3389, 3389),
  (3406, 3406), (3412, 3414), (3416, 3425), (3430, 3448), (3450, 3455), (3461, 3478),
  (3482, 3505), (3507, 3515), (3517, 3517), (3520, 3526), (3558, 3567), (3585, 3632),
  (3634, 3635), (3648, 3654), (3664, 3673), (3713, 3714), (3716, 3716), (3718, 3722),
  (3724, 3747), (3749, 3749), (3751, 3760), (3762, 3763), (3773, 3773), (3776, 3780),
  (3782, 3782), (3792, 3801), (3804, 3807), (3840, 3840), (3872, 3891), (3904, 3911),
  (3913, 3948), (3976, 3980), (4096, 4138), (4159, 4169), (4176, 4181), (4186, 4189),
  (4193, 4193), (4197, 4198), (4206, 4208), (4213, 4225), (4238, 4238), (4240, 4249),
  (4256, 4293), (4295, 4295), (4301, 4301), (4304, 4346), (4348, 4680), (4682, 4685),
  (4688, 4694), (4696, 4696), (4698, 4701), (4704, 4744), (4746, 4749), (4752, 4784),
  (4786, 4789), (4792, 4798), (4800, 4800), (4802, 4805), (4808, 4822), (4824, 4880),
  (4882, 4885), (4888, 4954), (4969, 4988), (4992, 5007), (5024, 5109), (5112, 5117),
  (5121, 5740), (5743, 5759), (5761, 5786), (5792, 5866), (5870, 5880), (5888, 5905),
  (5919, 5937), (5952, 5969), (5984, 5996), (5998, 6000), (6016, 6067), (6103, 6103),
  (6108, 6108), (6112, 6121), (6128, 6137), (6160, 6169), (6176, 6264), (6272, 6276),
  (6279, 6312), (6314, 6314), (6320, 6389), (6400, 6430), (6470, 6509), (6512, 6516),
  (6528, 6571), (6576, 6601), (6608, 6618), (6656, 6678), (6688, 6740), (6784, 6793),
  (6800, 6809), (6823, 6823), (6917, 6963), (6981, 6988), (6992, 7001), (7043, 7072),
  (7086, 7141), (7168, 7203), (7232, 7241), (7245, 7293), (7296, 7304), (7312, 7354),
  (7357, 7359), (7401, 7404), (7406, 7411), (7413, 7414), (7418, 7418), (7424, 7615),
  (7680, 7957), (7960, 7965), (7968, 8005), (8008, 8013), (8016, 8023), (8025, 8025),
  (8027, 8027), (8029, 8029), (8031, 8061), (8064, 8116), (8118, 8124), (8126, 8126),
  (8130, 8132), (8134, 8140), (8144, 8147), (8150, 8155), (8160, 8172), (8178, 8180),
  (8182, 8188), (8304, 8305), (8308, 8313), (8319, 8329), (8336, 8348), (8450, 8450),
  (8455, 8455), (8458, 8467), (8469, 8469), (8473, 8477), (8484, 8484), (8486, 8486),
  (8488, 8488), (8490, 8493), (8495, 8505), (8508, 8511), (8517, 8521), (8526, 8526),
  (8528, 8585), (9312, 9371), (9450, 9471), (10102, 10131), (11264, 11492), (11499, 11502),
  (11506, 11507), (11517, 11517), (11520, 11557), (11559, 11559), (11565, 11565), (11568, 11623),
  (11631, 11631), (11648, 11670), (11680, 11686), (11688, 11694), (11696, 11702), (11704, 11710),
  (11712, 11718), (11720, 11726), (11728, 11734), (11736, 11742), (11823, 11823), (12293, 12295),
  (12321, 12329), (12337, 12341), (12344, 12348), (12353, 12438), (12445, 12447), (12449, 12538),
  (12540, 12543), (12549, 12591), (12593, 12686), (12690, 12693), (12704, 12735), (12784, 12799),
  (12832, 12841), (12872, 12879), (12881, 12895), (12928, 12937), (12977, 12991), (13312, 19903),
  (19968, 42124), (42192, 42237), (42240, 42508), (42512, 42539), (42560, 42606), (42623, 42653),
  (42656, 42735), (42775, 42783), (42786, 42888), (42891, 42954), (42960, 42961), (42963, 42963),
  (42965, 42969), (42994, 43009), (43011, 43013), (43015, 43018), (43020, 43042), (43056, 43061),
  (43072, 43123), (43138, 43187), (43216, 43225), (43250, 43255), (43259, 43259), (43261, 43262),
  (43264, 43301), (43312, 43334), (43360, 43388), (43396, 43442), (43471, 43481), (43488, 43492),
  (43494, 43518), (43520, 43560), (43584, 43586), (43588, 43595), (43600, 43609), (43616, 43638),
  (43642, 43642), (43646, 43695), (43697, 43697), (43701, 43702), (43705, 43709), (43712, 43712),
  (43714, 43714), (43739, 43741), (43744, 43754), (43762, 43764), (43777, 43782), (43785, 43790),
  (43793, 43798), (43808, 43814), (43816, 43822), (43824, 43866), (43868, 43881), (43888, 44002),
  (44016, 44025), (44032, 55203), (55216, 55238), (55243, 55291), (63744, 64109), (64112, 64217),
  (64256, 64262), (64275, 64279), (64285, 64285), (64287, 64296), (64298, 64310), (64312, 64316),
  (64318, 64318), (64320, 64321), (64323, 64324), (64326, 64433), (64467, 64829), (64848, 64911),
  (64914, 64967), (65008, 65019), (65136, 65140), (65142, 65276), (65296, 65305), (65313, 65338),
  (65345, 65370), (65382, 65470), (65474, 65479), (65482, 65487), (65490, 65495), (65498, 65500),
  (65536, 65547), (65549, 65574), (65576, 65594), (65596, 65597), (65599, 65613), (65616, 65629),
  (65664, 65786), (65799, 65843), (65856, 65912), (65930, 65931), (66176, 66204), (66208, 66256),
  (66273, 66299), (66304, 66339), (66349, 66378), (66384, 66421), (66432, 66461), (66464, 66499),
  (66504, 66511), (66513, 66517), (66560, 66717), (66720, 66729), (66736, 66771), (66776, 66811),
  (66816, 66855), (66864, 66915), (66928, 66938), (66940, 66954), (66956, 66962), (66964, 66965),
  (66967, 66977), (66979, 66993), (66995, 67001), (67003, 67004), (67072, 67382), (67392, 67413),
  (67424, 67431), (67456, 67461), (67463, 67504), (67506, 67514), (67584, 67589), (67592, 67592),
  (67594, 67637), (67639, 67640), (67644, 67644), (67647, 67669), (67672, 67702), (67705, 67742),
  (67751, 67759), (67808, 67826), (67828, 67829), (67835, 67867), (67872, 67897), (67968, 68023),
  (68028, 68047), (68050, 68096), (68112, 68115), (68117, 68119), (68121, 68149), (68160, 68168),
  (68192, 68222), (68224, 68255), (68288, 68295), (68297, 68324), (68331, 68335), (68352, 68405),
  (68416, 68437), (68440, 68466), (68472, 68497), (68521, 68527), (68608, 68680), (68736, 68786),
  (68800, 68850), (68858, 68899), (68912, 68921), (69216, 69246), (69248, 69289), (69296, 69297),
  (69376, 69415), (69424, 69445), (69457, 69460), (69488, 69505), (69552, 69579), (69600, 69622),
  (69635, 69687), (69714, 69743), (69745, 69746), (69749, 69749), (69763, 69807), (69840, 69864),
  (69872, 69881), (69891, 69926), (69942, 69951), (69956, 69956), (69959, 69959), (69968, 70002),
  (70006, 70006), (70019, 70066), (70081, 70084), (70096, 70106), (70108, 70108), (70113, 70132),
  (70144, 70161), (70163, 70187), (70272, 70278), (70280, 70280), (70282, 70285), (70287, 70301),
  (70303, 70312), (70320, 70366), (70384, 70393), (70405, 70412), (70415, 70416), (70419, 70440),
  (70442, 70448), (70450, 70451), (70453, 70457), (70461, 70461), (70480, 70480), (70493, 70497),
  (70656, 70708), (70727, 70730), (70736, 70745), (70751, 70753), (70784, 70831), (70852, 70853),
  (70855, 70855), (70864, 70873), (71040, 71086), (71128, 71131), (71168, 71215), (71236, 71236),
  (71248, 71257), (71296, 71338), (71352, 71352), (71360, 71369), (71424, 71450), (71472, 71483),
  (71488, 71494), (71680, 71723), (71840, 71922), (71935, 71942), (71945, 71945), (71948, 71955),
  (71957, 71958), (71960, 71983), (71999, 71999), (72001, 72001), (72016, 72025), (72096, 72103),
  (72106, 72144), (72161, 72161), (72163, 72163), (72192, 72192), (72203, 72242), (72250, 72250),
  (72272, 72272), (72284, 72329), (72349, 72349), (72368, 72440), (72704, 72712), (72714, 72750),
  (72768, 72768), (72784, 72812), (72818, 72847), (72960, 72966), (72968, 72969), (72971, 73008),
  (73030, 73030), (73040, 73049), (73056, 73061), (73063, 73064), (73066, 73097), (73112, 73112),
  (73120, 73129), (73440, 73458), (73648, 73648), (73664, 73684), (73728, 74649), (74752, 74862),
  (74880, 75075), (77712, 77808), (77824, 78894), (82944, 83526), (92160, 92728), (92736, 92766),
  (92768, 92777), (92784, 92862), (92864, 92873), (92880, 92909), (92928, 92975), (92992, 92995),
  (93008, 93017), (93019, 93025), (93027, 93047), (93053, 93071), (93760, 93846), (93952, 94026),
  (94032, 94032), (94099, 94111), (94176, 94177), (94179, 94179), (94208, 100343), (100352, 101589),
  (101632, 101640), (110576, 110579), (110581, 110587), (110589, 110590), (110592, 110882), (110928, 110930),
  (110948, 110951), (110960, 111355), (113664, 113770), (113776, 113788), (113792, 113800), (113808, 113817),
  (119520, 119539), (119648, 119672), (119808, 119892), (119894, 119964), (119966, 119967), (119970, 119970),
  (119973, 119974), (119977, 119980), (119982, 119993), (119995, 119995), (119997, 120003), (120005, 120069),
  (120071, 120074), (120077, 120084), (120086, 120092), (120094, 120121), (120123, 120126), (120128, 120132),
  (120134, 120134), (120138, 120144), (120146, 120485), (120488, 120512), (120514, 120538), (120540, 120570),
  (120572, 120596), (120598, 120628), (120630, 120654), (120656, 120686), (120688, 120712), (120714, 120744),
  (120746, 120770), (120772, 120779), (120782, 120831), (122624, 122654), (123136, 123180), (123191, 123197),
  (123200, 123209), (123214, 123214), (123536, 123565), (123584, 123627), (123632, 123641), (124896, 124902),
  (124904, 124907), (124909, 124910), (124912, 124926), (124928, 125124), (125127, 125135), (125184, 125251),
  (125259, 125259), (125264, 125273), (126065, 126123), (126125, 126127), (126129, 126132), (126209, 126253),
  (126255, 126269), (126464, 126467), (126469, 126495), (126497, 126498), (126500, 126500), (126503, 126503),
  (126505, 126514), (126516, 126519), (126521, 126521), (126523, 126523), (126530, 126530), (126535, 126535),
  (126537, 126537), (126539, 126539), (126541, 126543), (126545, 126546), (126548, 126548), (126551, 126551),
  (126553, 126553), (126555, 126555), (126557, 126557), (126559, 126559), (126561, 126562), (126564, 126564),
  (126567, 126570), (126572, 126578), (126580, 126583), (126585, 126588), (126590, 126590), (126592, 126601),
  (126603, 126619), (126625, 126627), (126629, 126633), (126635, 126651), (127232, 127244), (130032, 130041),
  (131072, 173791), (173824, 177976), (177984, 178205), (178208, 183969), (183984, 191456), (194560, 195101),
  (196608, 201546)]

/-- Rust `char::is_alphanumeric` (src/main.rs line 162 uses `nc.is_alphanumeric()`):
true exactly on Unicode alphanumeric code points, per the table above. Note this
is the whole of Unicode, not just ASCII. -/
def is_alphanumeric (c : Char) : Bool :=
  alphanumericRanges.any (fun r => r.1 ≤ c.toNat && c.toNat ≤ r.2)

/-- The scanner's identifier-character test, from src/main.rs line 162:
`nc.is_alphanumeric() || nc == '_'`. -/
def isIdentChar (c : Char) : Bool :=
  is_alphanumeric c || c == '_'

/-- The inner `while let Some(&nc) = chars.peek()` loop of `apply_template`
(src/main.rs lines 161-169): starting just after a `$`, greedily take identifier
characters into the candidate name, stopping (without consuming) at the first
character that is not one. Returns the candidate name and the unconsumed rest. -/
def scanIdent : List Char → List Char × List Char
  | [] => ([], [])
  | c :: cs =>
    if isIdentChar c then
      let p := scanIdent cs
      (c :: p.1, p.2)
    else
      ([], c :: cs)

/-- The outer `while let Some(c) = chars.next()` loop of `apply_template`
(src/main.rs lines 159-188), one iteration per constructor step. `fuel` only
bounds the number of iterations so that the recursion is structural; every call
keeps `l.length ≤ fuel`, so the `fuel = 0` clause with a nonempty list is never
reached (`applyChars_fuel` below proves the result independent of any
sufficient fuel). -/
def applyChars (vars : String → Option String) : Nat → List Char → List Char
  | _, [] => []
  | 0, _ :: _ => []
  | fuel + 1, c :: cs =>
    if c = '$' then
      let p := scanIdent cs
      let out :=
        if p.1.isEmpty then
          ['$']
        else
          match vars (String.mk p.1) with
          | some v => v.data
          | none => '$' :: p.1
      out ++ applyChars vars fuel p.2
    else
      c :: applyChars vars fuel cs

/-- Rust `fn apply_template(s, vars)` (src/main.rs lines 155-190): scan the
input left to right; on `$`, greedily read a run of identifier characters as a
candidate variable name; a nonempty run present in `vars` is replaced by its
value, a nonempty absent run is emitted back as `$name`, an empty run emits the
`$` alone; all other characters are copied verbatim. -/
def apply_template (vars : String → Option String) (s : String) : String :=
  String.mk (applyChars vars s.data.length s.data)


/-- The `Template` struct of src/main.rs (lines 111-120). -/
structure Template where
  name : String
  description : String
  «alias» : List String
  commands : List String
  ignore : List String
  path : String
deriving DecidableEq, Repr

/-- Rust `str::to_lowercase` as used on template queries and names. Rust
lowercases the whole of Unicode; every string this development applies it to is
ASCII, where it is exactly ASCII lowercasing, which is what `Char.toLower`
performs. -/
def to_lowercase (s : String) : String :=
  String.mk (s.data.map Char.toLower)

/-- Template resolution from the install arm of `main` (src/main.rs lines
197-201): lowercase the query `t`, then find the first template such that
`template.alias.contains(&t) || template.name.to_lowercase() == t`. Note the
alias comparison is exact equality of each alias with the lowercased query. -/
def findTemplate (templates : List Template) (query : String) : Option Template :=
  let t := to_lowercase query
  templates.find? (fun template => template.«alias».contains t || to_lowercase template.name == t)

/-- Outcome of reading and parsing one registry entry's `.meta.toml`, the
abstraction of the external filesystem and `toml` crate calls in the `TEMPLATES`
initializer (src/main.rs lines 92-108):
* `missing` — `fs::read(path.join(".meta.toml"))` returned `Err` (file missing
  or unreadable), discarded by the first `.ok()?`;
* `invalidToml` — `toml::from_slice::<toml::Value>` failed (not valid TOML),
  discarded by the second `.ok()?`;
* `noTemplateKey` — the parsed value has no `template` key, discarded by `?`;
* `badTemplate` — the `template` value exists but `toml::to_string` or
  `toml::from_str::<Template>` on it fails (e.g. a field of the wrong type):
  both calls are `.unwrap()`ed, so this panics;
* `valid t` — the `template` table deserialized into `t`. -/
inductive MetaRead where
  | missing
  | invalidToml
  | noTemplateKey
  | badTemplate
  | valid (t : Template)
deriving DecidableEq

/-- One step of the `filter_map` closure in the `TEMPLATES` initializer
(src/main.rs lines 95-107). `Except.error ()` models the panic from the
`.unwrap()` on the `Template` deserialization; `Except.ok none` is the silent
skip via `?`; on success the entry's directory path overrides the parsed
`path` field (`Template { path, ..template }`). -/
def loadEntry (path : String) : MetaRead → Except Unit (Option Template)
  | .missing => .ok none
  | .invalidToml => .ok none
  | .noTemplateKey => .ok none
  | .badTemplate => .error ()
  | .valid t => .ok (some { t with path := path })

/-- Registry loading (src/main.rs lines 92-109): process the directory entries
in order through `loadEntry`, collecting the successes; a panic in any entry
aborts the whole initializer. -/
def loadTemplates : List (String × MetaRead) → Except Unit (List Template)
  | [] => .ok []
  | (path, m) :: rest =>
    match loadEntry path m with
    | .error e => .error e
    | .ok t? =>
      match loadTemplates rest with
      | .error e => .error e
      | .ok ts =>
        .ok (match t? with
             | some t => t :: ts
             | none => ts)

/-- The post-copy command loop of `main` (src/main.rs lines 294-304). `exec`
abstracts `Command::new(..).args(..).spawn()` + `wait()`: `Except.error` is an
IO failure from `spawn()` or `wait()` (whose `.unwrap()` panics, aborting the
loop), `Except.ok st` is a completed child with exit status `st`. Each command
string is substituted through `apply_template` before being run; the returned
list is the substituted commands actually executed, in order. The source binds
`wait()`'s `ExitStatus` result to nothing: a non-zero status is discarded and
the loop continues. -/
def runCommands (vars : String → Option String) (exec : String → Except String Int) :
    List String → Except String (List String)
  | [] => .ok []
  | cmd :: rest =>
    let c := apply_template vars cmd
    match exec c with
    | .error e => .error e
    | .ok _status =>
      match runCommands vars exec rest with
      | .error e => .error e
      | .ok ran => .ok (c :: ran)

/-- The fatal outcomes of the install arm of `main` relevant to the guard
ordering: `destinationNotEmpty` models `bail("Current directory is dirty :(")`
(src/main.rs line 210), `templateNotFound` models
`bail("No template found for ...")` (src/main.rs line 307). -/
inductive InstallError where
  | destinationNotEmpty
  | templateNotFound (t : String)
deriving DecidableEq

/-- The install arm of `main` (src/main.rs lines 196-308) up to and including
file materialization, returning the file-system write actions performed
together with the fatal error, if any. `destEntries` is the directory listing
of the current (destination) directory; `walk` abstracts the `WalkDir`
traversal and file materialization of the selected template (the writes it
would perform). The source resolves the template, then bails if the destination
has any entry and `force` is not set — before any write — and only then walks
and materializes files; an unknown template also writes nothing. -/
def installTemplate (templates : List Template) (query : String) (force : Bool)
    (destEntries : List String) (walk : Template → List (String × String)) :
    List (String × String) × Option InstallError :=
  let t := to_lowercase query
  let template := findTemplate templates query
  if force = false ∧ destEntries ≠ [] then
    ([], some .destinationNotEmpty)
  else
    match template with
    | some tmpl => (walk tmpl, none)
    | none => ([], some (.templateNotFound t))


/-! Helper lemmas about the scanner. -/

/-- The candidate name is the longest identifier-character run: `scanIdent` is
`takeWhile`/`dropWhile` of `isIdentChar`. -/
theorem scanIdent_eq_takeWhile (l : List Char) :
    scanIdent l = (l.takeWhile isIdentChar, l.dropWhile isIdentChar) := by
  induction l with
  | nil => rfl
  | cons c cs ih =>
    by_cases h : isIdentChar c
    · simp [scanIdent, h, ih, List.takeWhile_cons, List.dropWhile_cons]
    · simp [scanIdent, h, List.takeWhile_cons, List.dropWhile_cons]

/-- The unconsumed rest returned by the scanner is no longer than its input. -/
theorem scanIdent_snd_length (l : List Char) : (scanIdent l).2.length ≤ l.length := by
  induction l with
  | nil => simp [scanIdent]
  | cons c cs ih =>
    by_cases h : isIdentChar c
    · simp only [scanIdent, if_pos h]
      exact le_trans ih (Nat.le_succ _)
    · simp [scanIdent, h]

/-- A list of identifier characters is scanned whole, leaving nothing. -/
theorem scanIdent_all_ident (l : List Char) (h : ∀ c ∈ l, isIdentChar c = true) :
    scanIdent l = (l, []) := by
  induction l with
  | nil => rfl
  | cons c cs ih =>
    have hc : isIdentChar c := h c (List.mem_cons_self c cs)
    have ihc := ih (fun d hd => h d (List.mem_cons_of_mem c hd))
    simp [scanIdent, hc, ihc]

/-- The result of `applyChars` does not depend on the fuel, as long as the fuel
covers the input's length. -/
theorem applyChars_fuel (vars : String → Option String) :
    ∀ (f g : Nat) (l : List Char), l.length ≤ f → l.length ≤ g →
      applyChars vars f l = applyChars vars g l := by
  intro f
  induction f with
  | zero =>
    intro g l hf _
    have hl : l = [] := List.eq_nil_of_length_eq_zero (Nat.le_zero.mp hf)
    subst hl
    cases g <;> rfl
  | succ f ih =>
    intro g l hf hg
    cases l with
    | nil => cases g <;> rfl
    | cons c cs =>
      cases g with
      | zero => exact absurd hg (by simp)
      | succ g' =>
        have hf' : cs.length ≤ f := Nat.succ_le_succ_iff.mp hf
        have hg' : cs.length ≤ g' := Nat.succ_le_succ_iff.mp hg
        by_cases h : c = '$'
        · subst h
          simp only [applyChars, if_pos rfl, if_true]
          have hrest := scanIdent_snd_length cs
          rw [ih g' (scanIdent cs).2 (le_trans hrest hf') (le_trans hrest hg')]
        · simp only [applyChars, if_neg h]
          rw [ih g' cs hf' hg']

/-- Substitution-free inputs pass through `applyChars` unchanged. -/
theorem applyChars_no_dollar (vars : String → Option String) :
    ∀ (fuel : Nat) (l : List Char), l.length ≤ fuel → '$' ∉ l →
      applyChars vars fuel l = l := by
  intro fuel
  induction fuel with
  | zero =>
    intro l hf _
    have hl : l = [] := List.eq_nil_of_length_eq_zero (Nat.le_zero.mp hf)
    subst hl
    rfl
  | succ f ih =>
    intro l hf hd
    cases l with
    | nil => rfl
    | cons c cs =>
      have hc : ¬(c = '$') := fun h => hd (h ▸ List.mem_cons_self c cs)
      have hcs : '$' ∉ cs := fun h => hd (List.mem_cons_of_mem c h)
      simp only [applyChars, if_neg hc]
      rw [ih cs (Nat.succ_le_succ_iff.mp hf) hcs]

/-- Evaluating `apply_template` on `$` followed by a nonempty run of identifier
characters and nothing else: the run is the candidate name, looked up as-is. -/
theorem apply_template_dollar_run (vars : String → Option String) (n : List Char)
    (hn : n ≠ []) (hid : ∀ c ∈ n, isIdentChar c = true) :
    apply_template vars (String.mk ('$' :: n)) =
      match vars (String.mk n) with
      | some v => v
      | none => String.mk ('$' :: n) := by
  have hscan := scanIdent_all_ident n hid
  have hne : n.isEmpty = false := by
    cases n with
    | nil => exact absurd rfl hn
    | cons a as => rfl
  show String.mk (applyChars vars ('$' :: n).length ('$' :: n)) = _
  simp only [List.length_cons, applyChars, if_pos rfl, hscan, hne, Bool.false_eq_true,
    if_false]
  cases hv : vars (String.mk n) with
  | some v =>
    simp only [applyChars, List.append_nil, if_true]
  | none =>
    simp only [applyChars, List.append_nil, if_true]

/-! Claim theorems. -/

/-- C1 counterexample: the claim says every non-ASCII character — even a
Unicode alphanumeric one — terminates the run and is never included in the
candidate variable name. But `é` (U+00E9) satisfies `char::is_alphanumeric`,
so the scanner includes it: scanning `aé` consumes both characters, and
substituting `$aé` with `a ↦ X` leaves `$aé` (the name `aé` is unknown),
whereas the claimed ASCII-only scan would consume only `a` and produce `Xé`. -/
theorem c1_counterexample :
    (scanIdent ['a', 'é']).1 = ['a', 'é'] ∧
    apply_template (fun s => if s = "a" then some "X" else none) "$aé" = "$aé" ∧
    apply_template (fun s => if s = "a" then some "X" else none) "$aé" ≠ "Xé" :=
  ⟨by decide, by decide, by decide⟩

/-- C1 (amended): the substitution scanner treats exactly the characters
satisfying Rust's `char::is_alphanumeric` — Unicode alphanumerics, not only
ASCII — together with underscore as identifier characters: the candidate
variable name consumed after `$` is the longest run of such characters
(`takeWhile`), every other character terminates the run and is left unconsumed
(`dropWhile`), and in particular the non-ASCII letter `é` is an identifier
character. -/
theorem c1_ident_chars_are_unicode :
    (∀ l : List Char, (scanIdent l).1 = l.takeWhile isIdentChar ∧
        (scanIdent l).2 = l.dropWhile isIdentChar) ∧
    isIdentChar 'é' = true ∧ isIdentChar 'a' = true ∧ isIdentChar '_' = true ∧
    isIdentChar '-' = false :=
  ⟨fun l => ⟨by rw [scanIdent_eq_takeWhile], by rw [scanIdent_eq_takeWhile]⟩,
   by decide, by decide, by decide, by decide⟩

/-- C2 counterexample: the claim says an alias stored with uppercase letters
still matches a query differing only in case. But the code compares each alias
for exact equality with the lowercased query: the alias `Rust` matches the
query `rust` case-insensitively, yet resolution fails. -/
theorem c2_counterexample :
    findTemplate [⟨"tpl", "", ["Rust"], [], [], ""⟩] "rust" = none ∧
    to_lowercase "Rust" = to_lowercase "rust" :=
  ⟨by decide, by decide⟩

/-- C2 (amended): template resolution lowercases the query and succeeds exactly
when some template's lowercased name equals the lowercased query, or the
lowercased query appears verbatim — compared case-sensitively — in the
template's alias list; an alias is never itself lowercased before comparison. -/
theorem c2_find_success_characterization (templates : List Template) (query : String) :
    (findTemplate templates query).isSome ↔
      ∃ tmpl ∈ templates, to_lowercase query ∈ tmpl.«alias» ∨
        to_lowercase tmpl.name = to_lowercase query := by
  unfold findTemplate
  rw [List.find?_isSome]
  simp only [Bool.or_eq_true, beq_iff_eq, List.contains_iff_exists_mem_beq]
  constructor
  · rintro ⟨tmpl, hmem, h⟩
    refine ⟨tmpl, hmem, ?_⟩
    rcases h with h | h
    · obtain ⟨a, ha, hba⟩ := h
      exact Or.inl (by rwa [hba])
    · exact Or.inr h
  · rintro ⟨tmpl, hmem, h⟩
    refine ⟨tmpl, hmem, ?_⟩
    rcases h with h | h
    · exact Or.inl ⟨to_lowercase query, h, rfl⟩
    · exact Or.inr h

/-- C3 counterexample: the claim says a command exiting with a non-zero status
surfaces a hard CommandFailure and the following commands are not run. But the
source discards the `ExitStatus` returned by `wait()`: here every spawn
succeeds and every command exits with status 1, yet both commands run and the
loop reports success. -/
theorem c3_counterexample :
    runCommands (fun _ => none) (fun _ => Except.ok 1) ["git init", "git commit"] =
      Except.ok ["git init", "git commit"] := rfl

/-- C3 (amended): post-copy commands are spawned and awaited one at a time, in
declaration order; an IO failure from `spawn()` or `wait()` aborts the
remaining commands, but a completed command's exit status is discarded — when
every spawn completes, every command runs (its string substituted through
`apply_template`), whatever the exit statuses. -/
theorem c3_exit_status_is_discarded :
    (∀ (vars : String → Option String) (exec : String → Except String Int),
        (∀ s, ∃ st, exec s = .ok st) →
        ∀ cmds : List String,
          runCommands vars exec cmds = .ok (cmds.map (apply_template vars))) ∧
    (∀ (vars : String → Option String) (exec : String → Except String Int)
        (cmd : String) (rest : List String) (e : String),
        exec (apply_template vars cmd) = .error e →
        runCommands vars exec (cmd :: rest) = .error e) := by
  constructor
  · intro vars exec hok cmds
    induction cmds with
    | nil => rfl
    | cons cmd rest ih =>
      obtain ⟨st, hst⟩ := hok (apply_template vars cmd)
      simp [runCommands, hst, ih]
  · intro vars exec cmd rest e he
    simp [runCommands, he]

/-- C3 witness: a concrete run where both commands exit non-zero yet both are
executed, and a concrete spawn failure aborting before the second command. -/
theorem c3_witness :
    (∀ s, ∃ st : Int, (fun _ : String => Except.ok (ε := String) (1 : Int)) s = .ok st) ∧
    runCommands (fun _ => none) (fun _ => Except.ok 1) ["git init", "git commit"] =
      .ok (["git init", "git commit"].map (apply_template (fun _ => none))) ∧
    (fun _ : String => Except.error (α := Int) "ENOENT") (apply_template (fun _ => none) "git init") =
      .error "ENOENT" ∧
    runCommands (fun _ => none) (fun _ => Except.error "ENOENT") ["git init", "git commit"] =
      .error "ENOENT" :=
  ⟨fun _ => ⟨1, rfl⟩,
   c3_exit_status_is_discarded.1 (fun _ => none) (fun _ => Except.ok 1)
     (fun _ => ⟨1, rfl⟩) ["git init", "git commit"],
   rfl,
   c3_exit_status_is_discarded.2 (fun _ => none) (fun _ => Except.error "ENOENT")
     "git init" ["git commit"] "ENOENT" rfl⟩

/-- C4 counterexample: the claim says a template whose metadata fails to parse
is silently omitted while loading neither fails nor aborts and every sibling
with valid metadata still appears. But when the `template` value is present yet
fails to deserialize into the `Template` shape, the `.unwrap()` panics: loading
aborts and the valid sibling `gamma` does not appear either. -/
theorem c4_counterexample :
    loadTemplates [("a", .valid ⟨"alpha", "", [], [], [], ""⟩), ("b", .badTemplate),
      ("c", .valid ⟨"gamma", "", [], [], [], ""⟩)] = .error () := rfl

/-- C4 (amended): an entry whose metadata file is missing or unreadable, is not
valid TOML, or lacks a `template` key is silently omitted while every sibling
with valid metadata still appears, in order; but an entry whose `template`
value is present and fails to deserialize into the `Template` shape panics,
aborting the whole load. -/
theorem c4_parse_failures_skip_or_panic :
    (∀ entries : List (String × MetaRead),
        (∀ e ∈ entries, e.2 ≠ MetaRead.badTemplate) →
        loadTemplates entries = .ok (entries.filterMap (fun e =>
          match e.2 with
          | .valid t => some { t with path := e.1 }
          | _ => none))) ∧
    (∀ (pre post : List (String × MetaRead)) (p : String),
        (∀ e ∈ pre, e.2 ≠ MetaRead.badTemplate) →
        loadTemplates (pre ++ (p, MetaRead.badTemplate) :: post) = .error ()) := by
  constructor
  · intro entries h
    induction entries with
    | nil => rfl
    | cons e rest ih =>
      have he : e.2 ≠ MetaRead.badTemplate := h e (List.mem_cons_self e rest)
      have ihr := ih (fun d hd => h d (List.mem_cons_of_mem e hd))
      obtain ⟨path, m⟩ := e
      cases m with
      | badTemplate => exact absurd rfl he
      | missing => simp [loadTemplates, loadEntry, ihr]
      | invalidToml => simp [loadTemplates, loadEntry, ihr]
      | noTemplateKey => simp [loadTemplates, loadEntry, ihr]
      | valid t => simp [loadTemplates, loadEntry, ihr]
  · intro pre post p h
    induction pre with
    | nil => rfl
    | cons e rest ih =>
      have he : e.2 ≠ MetaRead.badTemplate := h e (List.mem_cons_self e rest)
      have ihr := ih (fun d hd => h d (List.mem_cons_of_mem e hd))
      obtain ⟨path, m⟩ := e
      cases m with
      | badTemplate => exact absurd rfl he
      | missing => simp [loadTemplates, loadEntry, ihr]
      | invalidToml => simp [loadTemplates, loadEntry, ihr]
      | noTemplateKey => simp [loadTemplates, loadEntry, ihr]
      | valid t => simp [loadTemplates, loadEntry, ihr]

/-- C4 witness: a registry with a missing metadata file, an invalid TOML file,
a file lacking the `template` key and one valid sibling loads to exactly that
sibling; and a concrete bad `template` table aborts the load. -/
theorem c4_witness :
    (∀ e ∈ [("a", MetaRead.missing), ("b", MetaRead.invalidToml),
        ("k", MetaRead.noTemplateKey), ("c", MetaRead.valid ⟨"gamma", "", [], [], [], ""⟩)],
      e.2 ≠ MetaRead.badTemplate) ∧
    loadTemplates [("a", MetaRead.missing), ("b", MetaRead.invalidToml),
        ("k", MetaRead.noTemplateKey), ("c", MetaRead.valid ⟨"gamma", "", [], [], [], ""⟩)] =
      .ok [⟨"gamma", "", [], [], [], "c"⟩] ∧
    (∀ e ∈ [("a", MetaRead.valid ⟨"alpha", "", [], [], [], ""⟩)],
      e.2 ≠ MetaRead.badTemplate) ∧
    loadTemplates ([("a", MetaRead.valid ⟨"alpha", "", [], [], [], ""⟩)] ++
        ("b", MetaRead.badTemplate) :: [("c", MetaRead.valid ⟨"gamma", "", [], [], [], ""⟩)]) =
      .error () :=
  ⟨by decide,
   c4_parse_failures_skip_or_panic.1 _ (by decide),
   by decide,
   c4_parse_failures_skip_or_panic.2 [("a", MetaRead.valid ⟨"alpha", "", [], [], [], ""⟩)]
     [("c", MetaRead.valid ⟨"gamma", "", [], [], [], ""⟩)] "b" (by decide)⟩

/-- C5: if the destination directory has any pre-existing entry and force was
not requested, the install pipeline bails with the dirty-directory error
(`DestinationNotEmpty`) before any write: the performed write-action list is
empty, so the destination is unmodified. -/
theorem c5_dirty_destination_guard (templates : List Template) (query : String)
    (destEntries : List String) (walk : Template → List (String × String))
    (h : destEntries ≠ []) :
    installTemplate templates query false destEntries walk =
      ([], some .destinationNotEmpty) := by
  simp [installTemplate, h]

/-- C5 witness: a destination containing one entry, with a template that would
write a file, bails with nothing written. -/
theorem c5_witness :
    (["existing.txt"] ≠ ([] : List String)) ∧
    installTemplate [⟨"tpl", "", [], [], [], "/t"⟩] "tpl" false ["existing.txt"]
        (fun _ => [("out.txt", "data")]) = ([], some .destinationNotEmpty) :=
  ⟨by decide,
   c5_dirty_destination_guard [⟨"tpl", "", [], [], [], "/t"⟩] "tpl" ["existing.txt"]
     (fun _ => [("out.txt", "data")]) (by decide)⟩

/-- C6: for every mapping and every nonempty name `n` of identifier
characters, substituting `$` followed by `n` yields the mapped value when `n`
is a key — emitted raw, with no recursive substitution — and yields `$n`
unchanged, with no error, when `n` is not a key. -/
theorem c6_known_and_unknown_names (vars : String → Option String) (n : List Char)
    (hn : n ≠ []) (hid : ∀ c ∈ n, isIdentChar c = true) :
    (∀ v, vars (String.mk n) = some v →
        apply_template vars (String.mk ('$' :: n)) = v) ∧
    (vars (String.mk n) = none →
        apply_template vars (String.mk ('$' :: n)) = String.mk ('$' :: n)) := by
  constructor
  · intro v hv
    rw [apply_template_dollar_run vars n hn hid, hv]
  · intro hv
    rw [apply_template_dollar_run vars n hn hid, hv]

/-- C6 witness: with `name ↦ a$b`, substituting `$name` yields `a$b` raw (its
`$b` is not substituted again); with `name` absent, `$name` is unchanged. -/
theorem c6_witness :
    (['n', 'a', 'm', 'e'] ≠ ([] : List Char)) ∧
    (∀ c ∈ ['n', 'a', 'm', 'e'], isIdentChar c = true) ∧
    (fun s => if s = "name" then some "a$b" else none) (String.mk ['n', 'a', 'm', 'e']) =
      some "a$b" ∧
    apply_template (fun s => if s = "name" then some "a$b" else none)
      (String.mk ('$' :: ['n', 'a', 'm', 'e'])) = "a$b" ∧
    (fun _ : String => (none : Option String)) (String.mk ['n', 'a', 'm', 'e']) = none ∧
    apply_template (fun _ => none) (String.mk ('$' :: ['n', 'a', 'm', 'e'])) =
      String.mk ('$' :: ['n', 'a', 'm', 'e']) :=
  ⟨by decide, by decide, by decide,
   (c6_known_and_unknown_names (fun s => if s = "name" then some "a$b" else none)
     ['n', 'a', 'm', 'e'] (by decide) (by decide)).1 "a$b" (by decide),
   rfl,
   (c6_known_and_unknown_names (fun _ => none)
     ['n', 'a', 'm', 'e'] (by decide) (by decide)).2 rfl⟩

/-- C8: the identifier run consumed after `$` is maximal: for every mapping,
key `n` of the mapping (an identifier-character name) and identifier character
`c` such that `n ++ c` is not a key, substituting `$` ++ `n` ++ `c` leaves the
text unchanged — the shorter key `n` is never used. -/
theorem c8_greedy_longest_match (vars : String → Option String) (n : List Char)
    (v : String) (c : Char) (hid : ∀ a ∈ n, isIdentChar a = true)
    (hc : isIdentChar c = true) (hkey : vars (String.mk n) = some v)
    (hlong : vars (String.mk (n ++ [c])) = none) :
    apply_template vars (String.mk ('$' :: (n ++ [c]))) =
      String.mk ('$' :: (n ++ [c])) := by
  have hid' : ∀ a ∈ n ++ [c], isIdentChar a = true := by
    intro a ha
    rcases List.mem_append.mp ha with h | h
    · exact hid a h
    · rcases List.mem_singleton.mp h with rfl
      exact hc
  rw [apply_template_dollar_run vars (n ++ [c]) (by simp) hid', hlong]

/-- C8 witness: with `ab ↦ V` and `abc` unmapped, `$abc` is left unchanged
rather than becoming `Vc`. -/
theorem c8_witness :
    (∀ a ∈ ['a', 'b'], isIdentChar a = true) ∧
    isIdentChar 'c' = true ∧
    (fun s => if s = "ab" then some "V" else none) (String.mk ['a', 'b']) = some "V" ∧
    (fun s => if s = "ab" then some "V" else none) (String.mk (['a', 'b'] ++ ['c'])) = none ∧
    apply_template (fun s => if s = "ab" then some "V" else none)
        (String.mk ('$' :: (['a', 'b'] ++ ['c']))) =
      String.mk ('$' :: (['a', 'b'] ++ ['c'])) :=
  ⟨by decide, by decide, by decide, by decide,
   c8_greedy_longest_match (fun s => if s = "ab" then some "V" else none)
     ['a', 'b'] "V" 'c' (by decide) (by decide) (by decide) (by decide)⟩

/-- C9: substitution is the identity on substitution-free input: any string
containing no `$` character is returned unchanged, for every mapping. -/
theorem c9_identity_on_dollar_free (vars : String → Option String) (t : String)
    (h : '$' ∉ t.data) : apply_template vars t = t := by
  show String.mk (applyChars vars t.data.length t.data) = t
  rw [applyChars_no_dollar vars t.data.length t.data (le_refl _) h]

/-- C9 witness: a concrete `$`-free string passing through unchanged under a
nonempty mapping. -/
theorem c9_witness :
    ('$' ∉ "Hello, name World_42! é".data) ∧
    apply_template (fun s => if s = "name" then some "X" else none)
      "Hello, name World_42! é" = "Hello, name World_42! é" :=
  ⟨by decide,
   c9_identity_on_dollar_free (fun s => if s = "name" then some "X" else none)
     "Hello, name World_42! é" (by decide)⟩

/-- C10: variable-name lookup is exactly case-sensitive, character for
character: for any mapping where `Name` is not a key but `name` maps to some
value, substituting `$Name` leaves `$Name` unchanged — no case folding is
applied to variable names. -/
theorem c10_lookup_is_case_sensitive (vars : String → Option String) (v : String)
    (hupper : vars "Name" = none) (hlower : vars "name" = some v) :
    apply_template vars "$Name" = "$Name" := by
  have h := apply_template_dollar_run vars ['N', 'a', 'm', 'e'] (by decide) (by decide)
  have e1 : String.mk ['N', 'a', 'm', 'e'] = "Name" := by decide
  have e2 : String.mk ('$' :: ['N', 'a', 'm', 'e']) = "$Name" := by decide
  rw [e1, e2] at h
  rw [h, hupper]

/-- C10 witness: with exactly `name ↦ X` mapped, `$Name` is unchanged. -/
theorem c10_witness :
    (fun s => if s = "name" then some "X" else none) "Name" = none ∧
    (fun s => if s = "name" then some "X" else none) "name" = some "X" ∧
    apply_template (fun s => if s = "name" then some "X" else none) "$Name" = "$Name" :=
  ⟨by decide, by decide,
   c10_lookup_is_case_sensitive (fun s => if s = "name" then some "X" else none) "X"
     (by decide) (by decide)⟩

/-- C7: when `$` is followed by end of input or a non-identifier character, the
literal `$` is emitted unchanged and scanning resumes at the following
character with no double-consumption; in particular `$` alone substitutes to
`$` for every mapping, and `$$name` with `name ↦ v` substitutes to `$` ++ `v`:
the first `$` is emitted literally, the second resolves. -/
theorem c7_empty_run_emits_dollar :
    (∀ (vars : String → Option String) (rest : List Char),
        (∀ c, rest.head? = some c → isIdentChar c = false) →
        apply_template vars (String.mk ('$' :: rest)) =
          String.mk ('$' :: (apply_template vars (String.mk rest)).data)) ∧
    (∀ vars : String → Option String, apply_template vars "$" = "$") ∧
    (∀ (vars : String → Option String) (v : String), vars "name" = some v →
        apply_template vars "$$name" = "$" ++ v) := by
  refine ⟨?_, ?_, ?_⟩
  · intro vars rest h
    cases rest with
    | nil => rfl
    | cons c cs =>
      have hc : isIdentChar c = false := h c rfl
      show String.mk (applyChars vars ('$' :: c :: cs).length ('$' :: c :: cs)) = _
      simp only [apply_template, List.length_cons, applyChars, if_pos rfl, if_true,
        scanIdent, hc, Bool.false_eq_true, if_false, List.isEmpty_nil,
        List.singleton_append]
  · intro vars
    rfl
  · intro vars v hv
    have h1 : scanIdent ['$', 'n', 'a', 'm', 'e'] = ([], ['$', 'n', 'a', 'm', 'e']) := by
      decide
    have h2 : scanIdent ['n', 'a', 'm', 'e'] = (['n', 'a', 'm', 'e'], []) := by decide
    have e : String.mk ['n', 'a', 'm', 'e'] = "name" := by decide
    show String.mk (applyChars vars 6 ['$', '$', 'n', 'a', 'm', 'e']) = "$" ++ v
    simp only [applyChars, if_pos rfl, if_true, h1, h2, e, List.isEmpty_nil,
      List.isEmpty_cons, Bool.false_eq_true, if_false, hv, List.append_nil,
      List.singleton_append]
    cases v with
    | mk d => rfl

/-- C7 witness: `$` before a space, a trailing solitary `$`, and `$$name` with
`name ↦ X`. -/
theorem c7_witness :
    (∀ c, ([' ', 'a'] : List Char).head? = some c → isIdentChar c = false) ∧
    apply_template (fun _ => none) (String.mk ('$' :: [' ', 'a'])) =
      String.mk ('$' :: (apply_template (fun _ => none) (String.mk [' ', 'a'])).data) ∧
    apply_template (fun _ => none) "$" = "$" ∧
    (fun s => if s = "name" then some "X" else none) "name" = some "X" ∧
    apply_template (fun s => if s = "name" then some "X" else none) "$$name" = "$" ++ "X" :=
  ⟨fun c hc => by
      simp only [List.head?_cons, Option.some.injEq] at hc
      subst hc
      decide,
   c7_empty_run_emits_dollar.1 (fun _ => none) [' ', 'a']
     (fun c hc => by
       simp only [List.head?_cons, Option.some.injEq] at hc
       subst hc
       decide),
   c7_empty_run_emits_dollar.2.1 (fun _ => none),
   by decide,
   c7_empty_run_emits_dollar.2.2 (fun s => if s = "name" then some "X" else none) "X"
     (by decide)⟩
